import Mathlib

/-!
Shallow embedding of the AbiosGaming `push-api-client` websocket demo client
(files `main.go`, `utils.go`, `http_requests.go`, `structs.go` and the earlier
generations of the same program kept in the repository).

Pure fragments of the Go source are translated to Lean functions; the calls the
client makes into external libraries (`encoding/json.Unmarshal`, the websocket
transport reads/writes, the HTTP control-plane requests, `uuid.FromString`) are
passed in as explicit function arguments or result values, so every repository
function stays a deterministic function of its inputs.  Machine integers
(`int64` durations, close codes) are modelled as `Int`, with two's-complement
wrap-around applied exactly where Go applies it.
-/

/-- Model of the 16-byte UUID type used by the client
(`github.com/gofrs/uuid` / `github.com/satori/go.uuid`): a 128-bit value. -/
structure UUID where
  val : Nat
deriving DecidableEq

/-- `uuid.Nil`, the zero UUID. -/
def uuidNil : UUID := ⟨0⟩

/-- Lower-case hex digit, as the external uuid library prints them. -/
def hexChar (n : Nat) : Char :=
  if n < 10 then Char.ofNat (48 + n) else Char.ofNat (87 + n)

/-- Fixed-width big-endian hex rendering of a natural number. -/
def hexFixed (w n : Nat) : List Char :=
  (List.range w).reverse.map fun i => hexChar (n / 16 ^ i % 16)

/-- Model of `uuid.UUID.String()` (external library): the canonical
8-4-4-4-12 lower-case hex form. -/
def uuidString (u : UUID) : String :=
  let h := hexFixed 32 u.val
  ⟨h.take 8 ++ '-' :: (h.drop 8).take 4 ++ '-' :: (h.drop 12).take 4 ++
    '-' :: (h.drop 16).take 4 ++ '-' :: h.drop 20⟩

/-! ### Close codes (`utils.go:23-33`, identical in `unnamed/part_003:21-31`)

Custom status codes sent by the server for the websocket `close` command;
RFC6455 allocates 4000-4999 to application-specific codes. -/

def CloseMissingSecret : Int := 4000

def CloseInvalidSecret : Int := 4001

def CloseNotAuthorized : Int := 4002

def CloseMaxNumSubscribers : Int := 4003

def CloseMaxNumSubscriptions : Int := 4004

def CloseInvalidReconnectToken : Int := 4005

def CloseMissingSubscriptionID : Int := 4006

def CloseUnknownSubscriptionID : Int := 4007

def CloseInternalError : Int := 4500

/-! ### Disconnect classification (`readInitMessage`, `main.go:158-192`) -/

/-- The close-code classification switch of `readInitMessage`
(`main.go:166-179`, same switch in `unnamed/part_001:176-189`): the error
message produced from the numeric close code set by the server.  The Go
`switch` has cases for 4007, 4006, 4003, 4004 and 4500 and a `default` arm
formatting the unrecognized code. -/
def initCloseErrMsg (subscriptionIDOrName : String) (code : Int) : String :=
  if code = CloseUnknownSubscriptionID then
    "Subscription ID '" ++ subscriptionIDOrName ++ "' is not registered on server"
  else if code = CloseMissingSubscriptionID then
    "Missing subscription ID or name in setup request"
  else if code = CloseMaxNumSubscribers then
    "The max number of concurrent subscribers for the account has been exceeded"
  else if code = CloseMaxNumSubscriptions then
    "The max number of registered subscriptions for the account has been exceeded"
  else if code = CloseInternalError then
    "Unknown server error"
  else
    "Server sent unrecognized error code " ++ toString code

/-! ### Connect-loop retry policy (`websocketConnectLoop`) -/

/-- `net/http.StatusUnauthorized`. -/
def StatusUnauthorized : Int := 401

/-- `net/http.StatusTooManyRequests`. -/
def StatusTooManyRequests : Int := 429

/-- A Go `error` interface value as the type switch in
`websocketConnectLoop` sees it: its dynamic type and payload.  Every error
return site of `connectToWebsocket` constructs the struct
`WebsocketSetupHTTPError` BY VALUE (`http_requests.go:50`,
`http_requests.go:305`) or passes the dial error through; the pointer dynamic
type `*WebsocketSetupHTTPError` is listed only because the switch names it —
no call site in the repository produces it. -/
inductive ConnectError where
  | setupHTTPErrorValue (status : Int)
  | setupHTTPErrorPtr (status : Int)
  | other (msg : String)
deriving DecidableEq

/-- The error `connectToWebsocket` returns when `dialer.Dial` fails
(`http_requests.go:47-54` and `300-309`): when an HTTP upgrade response is
present, the value-typed `WebsocketSetupHTTPError{HttpStatus:
resp.StatusCode, error: err}`; otherwise the plain dial error. -/
def connectToWebsocketError (respStatus : Option Int) (dialErr : String) :
    ConnectError :=
  match respStatus with
  | some s => .setupHTTPErrorValue s
  | none => .other dialErr

/-- What one iteration of `websocketConnectLoop` decides to do after a failed
`connectToWebsocket` call. -/
inductive ConnectLoopAction where
  | refreshTokenAndRetry
  | sleepAndRetry (seconds : Nat)
  | retryNow
  | fatal
deriving DecidableEq

/-- One iteration of `websocketConnectLoop` (`main.go:124-156`), the
client-id/client-secret (expiring access token) generation, on a failed
attempt.  Go's `switch v := err.(type)` with `case *WebsocketSetupHTTPError:`
(`main.go:131`) matches only the POINTER dynamic type; the value-typed
`WebsocketSetupHTTPError` that `connectToWebsocket` actually returns falls to
the `default` arm.  Inside the written pointer case: 401 requests a fresh
access token and retries at once, 429 sleeps 30 seconds, any other status
falls through with no sleep; the `default` arm sleeps 5 seconds. -/
def websocketConnectLoopStep : ConnectError → ConnectLoopAction
  | .setupHTTPErrorPtr s =>
    if s = StatusUnauthorized then .refreshTokenAndRetry
    else if s = StatusTooManyRequests then .sleepAndRetry 30
    else .retryNow
  | .setupHTTPErrorValue _ => .sleepAndRetry 5
  | .other _ => .sleepAndRetry 5

/-- One iteration of `websocketConnectLoop` (`unnamed/part_001:126-155`), the
static-secret (v3) generation, on a failed attempt: the same pointer type
switch (`part_001:133`); inside the written pointer case 401 is returned to
the caller as an error (fatal) and 429 sleeps 30 seconds; the `default` arm
sleeps 5 seconds. -/
def websocketConnectLoopStepSecret : ConnectError → ConnectLoopAction
  | .setupHTTPErrorPtr s =>
    if s = StatusUnauthorized then .fatal
    else if s = StatusTooManyRequests then .sleepAndRetry 30
    else .retryNow
  | .setupHTTPErrorValue _ => .sleepAndRetry 5
  | .other _ => .sleepAndRetry 5

/-! ### Push messages and the inbound pipeline (`structs.go`, `utils.go:53-63`) -/

/-- `PushMessage` (`structs.go`): the push-event envelope.  The opaque
`map[string]interface{}` payload is modelled as an association list of opaque
values rendered as strings; none of the client's control flow looks inside
it. -/
structure PushMessage where
  channel : String
  uuid : UUID
  sentTimestamp : Int
  createdTimestamp : Int
  payload : List (String × String)
deriving DecidableEq

/-- `tryUnmarshalJSONAsPushMessage` (`utils.go:53-63`): wraps the external
`encoding/json.Unmarshal` (passed as `jsonUnmarshal`; `.error e` stands for a
non-nil Go error with text `e`) and decorates a failure with the offending
raw bytes. -/
def tryUnmarshalJSONAsPushMessage
    (jsonUnmarshal : String → Except String PushMessage)
    (jsonMsg : String) : Except String PushMessage :=
  match jsonUnmarshal jsonMsg with
  | .error err =>
    .error ("Error when unmarshalling incoming json. Error:" ++ err ++
      ", JSON:" ++ jsonMsg)
  | .ok msg => .ok msg

/-- The result of one blocking `conn.ReadMessage()` call on the websocket:
a `*websocket.CloseError` with its numeric close code, any other read error,
or a successfully read data frame (its bytes as text). -/
inductive ReadResult where
  | closeErr (code : Int)
  | otherErr (msg : String)
  | frame (bytes : String)
deriving DecidableEq

/-- What one iteration of `messageReadLoop` does with one read result. -/
inductive LoopAction where
  | reconnect (tokenUsed : UUID)
  | exitProcess (code : Nat)
  | deliver (bytes : String)
  | dropLogged (logLine : String)
deriving DecidableEq

/-- One iteration of `messageReadLoop` (`main.go:198-247`, same control flow
in `unnamed/part_001:203-238`) while the session is Active:

* a `*websocket.CloseError` (any close code: the code is not inspected)
  starts the reconnect, `setupPushServiceConnection(..., currReconnectToken,
  ...)`, passing the stored reconnect token;
* any other read error is fatal, `os.Exit(3)`;
* a data frame is sanity-decoded by `tryUnmarshalJSONAsPushMessage`: on
  failure the frame is logged together with its raw bytes and skipped
  (`continue`), on success it is handed to `printJsonWithTag("MSG", ...)`. -/
def messageReadLoopStep (jsonUnmarshal : String → Except String PushMessage)
    (currReconnectToken : UUID) : ReadResult → LoopAction
  | .closeErr _ => .reconnect currReconnectToken
  | .otherErr _ => .exitProcess 3
  | .frame message =>
    match tryUnmarshalJSONAsPushMessage jsonUnmarshal message with
    | .error e =>
      .dropLogged ("[ERROR]: Failed to unmarshal to message struct. Error='" ++
        e ++ "', Message='" ++ message ++ "'")
    | .ok _ => .deliver message

/-- Cumulative behaviour of `messageReadLoop` over a finite list of read
results: the frames handed to `printJsonWithTag("MSG", ...)` (delivered to
the consumer), and the `os.Exit` code if the loop terminated the process.
A `.reconnect` is modelled as a successful reconnection (the loop continues
with the connection handle replaced and the stored token unchanged). -/
def messageReadLoopRun (jsonUnmarshal : String → Except String PushMessage)
    (tok : UUID) : List ReadResult → List String × Option Nat
  | [] => ([], none)
  | r :: rest =>
    match messageReadLoopStep jsonUnmarshal tok r with
    | .exitProcess n => ([], some n)
    | .deliver m =>
      let d := messageReadLoopRun jsonUnmarshal tok rest
      (m :: d.1, d.2)
    | _ => messageReadLoopRun jsonUnmarshal tok rest

/-! ### The upgrade-request URL (`http_requests.go:25-29` and `290-294`) -/

/-- The URL built by `connectToWebsocket`: the `subscription_id` query
parameter always, and the `reconnect_token` parameter only when the token
differs from `uuid.Nil`. -/
def connectToWebsocketURL (wsURL : String) (reconnectToken : UUID)
    (subscriptionIDOrName : String) : String :=
  let url := wsURL ++ "?subscription_id=" ++ subscriptionIDOrName
  if reconnectToken ≠ uuidNil then
    url ++ "&reconnect_token=" ++ uuidString reconnectToken
  else url

/-- `pat` occurs as a contiguous substring of `s`. -/
def containsSub (s pat : String) : Prop := pat.data <:+: s.data

instance (s pat : String) : Decidable (containsSub s pat) :=
  inferInstanceAs (Decidable (pat.data <:+: s.data))

/-! ### Keepalive loop (`main.go:256-268`, `unnamed/part_001:247-258`) -/

/-- A websocket connection handle (`*websocket.Conn`); only its identity
matters to the model. -/
structure Conn where
  id : Nat
deriving DecidableEq

/-- Result of a `conn.WriteControl` call (external transport). -/
inductive WriteControlResult where
  | ok
  | failed (err : String)
deriving DecidableEq

/-- Whether the write failed. -/
def WriteControlResult.isFailure : WriteControlResult → Bool
  | .ok => false
  | .failed _ => true

/-- Observable outcome of one keepalive tick. -/
structure KeepAliveTickOutcome where
  pingAttempted : Bool
  logLine : Option String
  exitsProcess : Bool
deriving DecidableEq

/-- One tick of `keepAliveLoop` (`main.go:256-268`, identical control flow in
`unnamed/part_001:247-258`): after the 30-second sleep, a ping control frame
is written only when the shared `conn` is non-nil; a failed write is logged
and the loop `continue`s.  The pair's second component is the value of the
shared `conn` variable after the tick (the loop never assigns it). -/
def keepAliveTick (conn : Option Conn)
    (writePing : Conn → WriteControlResult) :
    KeepAliveTickOutcome × Option Conn :=
  match conn with
  | none => ({ pingAttempted := false, logLine := none, exitsProcess := false }, none)
  | some c =>
    match writePing c with
    | .ok => ({ pingAttempted := true, logLine := none, exitsProcess := false }, some c)
    | .failed e =>
      ({ pingAttempted := true,
         logLine := some ("[ERROR] Failed to send Ping message. Error: " ++ e),
         exitsProcess := false }, some c)

/-! ### Handshake and the stored reconnect token
(`setupPushServiceConnection`, `unnamed/part_001:98-124`) -/

/-- `SubscriptionFilter` (`structs.go` / `unnamed/part_000`). -/
structure SubscriptionFilter where
  channel : String
  gameID : Int
  seriesID : Int
  matchID : Int
deriving DecidableEq

/-- `Subscription` (`unnamed/part_000:32-37`). -/
structure Subscription where
  id : UUID
  description : String
  name : String
  filters : List SubscriptionFilter
deriving DecidableEq

/-- `InitResponseMessage` (`unnamed/part_000:5-30`): the handshake (`init`)
frame sent by the server right after a successful upgrade. -/
structure InitResponseMessage where
  channel : String
  uuid : UUID
  cmd : String
  subscriberID : UUID
  reconnectToken : UUID
  subscription : Subscription
  reconnected : Bool
deriving DecidableEq

/-- The effect of `setupPushServiceConnection` (`unnamed/part_001:98-124`) on
the stored global `currReconnectToken`.  `readInit` is the result of
`readInitMessage` on the freshly connected websocket (the raw init frame or
an error); `unmarshalInit` stands for the external `json.Unmarshal` into
`InitResponseMessage`.  Returns the new value of `currReconnectToken`
(`currReconnectToken = m.ReconnectToken`, `part_001:119`), or the error the
function hands back to its caller; on error the global is not assigned. -/
def setupPushServiceConnection
    (unmarshalInit : String → Except String InitResponseMessage)
    (readInit : Except String String)
    (currReconnectToken : UUID) : Except String UUID :=
  match readInit with
  | .error e => .error ("Failed to read initial message from server. Error: " ++ e)
  | .ok initMsg =>
    match unmarshalInit initMsg with
    | .error e => .error ("Failed to unmarshal init response. Error: " ++ e)
    | .ok m => .ok m.reconnectToken

/-- `reconnectToken, _ := uuid.FromString(*reconnectTokenFlag)`
(`unnamed/part_001:75`, `main.go:78`): the token used before the first
successful handshake.  `fromString` stands for the external
`uuid.FromString`, whose first return value is the zero UUID when it also
returns an error. -/
def parseReconnectTokenFlag (fromString : String → Except String UUID)
    (flagValue : String) : UUID :=
  match fromString flagValue with
  | .ok u => u
  | .error _ => uuidNil

/-! ### Subscription registration and shutdown
(`registerOrUpdateSubscription`, `unnamed/part_001:260-301`;
`setupSubscriptionRemoval`, `unnamed/part_003:115-138`;
`disconnectWebsocket`, `unnamed/part_001:157-166`) -/

/-- `registerOrUpdateSubscription` (`unnamed/part_001:260-301`): returns the
subscription id or name the session will subscribe with, together with
`wasUpdated` (Go's `alreadyExists`).  `readSubscriptionSpec` is the result of
reading the `--subscription-file`; `registerSubscription` and
`updateSubscription` are the external control-plane HTTP calls, each
returning an id and an already-exists/conflict flag.  When no file is given,
`alreadyExists` keeps its zero value `false`; when an id is given via
`--subscription-id`, that id is returned unchanged. -/
def registerOrUpdateSubscription
    (subscriptionFileFlag subscriptionIDFlag : String)
    (readSubscriptionSpec : Except String Subscription)
    (registerSubscription : Subscription → Except String (UUID × Bool))
    (updateSubscription : Subscription → Except String (UUID × Bool)) :
    Except String (String × Bool) :=
  if subscriptionFileFlag ≠ "" then
    match readSubscriptionSpec with
    | .error e => .error ("Could not read subscription spec from file. Error=" ++ e)
    | .ok sub =>
      match registerSubscription sub with
      | .error e => .error ("Subscription registration request failed. Error: " ++ e)
      | .ok (subscriptionID, alreadyExists) =>
        if alreadyExists then
          match updateSubscription { sub with id := subscriptionID } with
          | .error e => .error ("Failed to update subscription. Error: " ++ e)
          | .ok _ => .ok (uuidString subscriptionID, true)
        else .ok (uuidString subscriptionID, false)
  else if subscriptionIDFlag ≠ "" then .ok (subscriptionIDFlag, false)
  else .ok ("", false)

/-- `unnamed/part_001:66-71`: the interrupt handler that deletes the
subscription on shutdown is registered iff the registration step did not find
an already-existing subscription (`if !wasUpdated`).  In the `main.go`
generation (`main.go:70-75`) it is registered unconditionally. -/
def removalHandlerRegistered (wasUpdated : Bool) : Bool := !wasUpdated

/-- `disconnectWebsocket` (`unnamed/part_001:157-166`): send a close control
frame when the shared `conn` is non-nil. -/
def disconnectWebsocket (conn : Option Conn)
    (writeClose : Conn → WriteControlResult) : Except String Unit :=
  match conn with
  | none => .ok ()
  | some c =>
    match writeClose c with
    | .ok => .ok ()
    | .failed e => .error ("Failed to send Close message. Error: " ++ e)

/-- Observable outcome of the shutdown signal handler. -/
structure ShutdownOutcome where
  deleteRequested : Bool
  deleteLog : Option String
  closeFrameAttempted : Bool
  disconnectLog : Option String
  exitCode : Nat
deriving DecidableEq

/-- The signal-handler body of `setupSubscriptionRemoval`
(`unnamed/part_003:124-137`): once the interrupt signal arrives it requests
deletion of the subscription (`deleteResult` is the outcome of the external
`deleteSubscription` HTTP call), then sends a close control frame via
`disconnectWebsocket`; each failure is only logged, and the process exits
with `os.Exit(0)`. -/
def shutdownHandlerBody (deleteResult : Except String Unit)
    (conn : Option Conn) (writeClose : Conn → WriteControlResult) :
    ShutdownOutcome :=
  let deleteLog := match deleteResult with
    | .error e => some ("[ERROR] Failed to delete subscription. Error: " ++ e)
    | .ok _ => none
  let disconnectLog := match disconnectWebsocket conn writeClose with
    | .error e => some ("[ERROR] Failed to do clean websocket disconnect. Error: " ++ e)
    | .ok _ => none
  { deleteRequested := true
    deleteLog := deleteLog
    closeFrameAttempted := conn.isSome
    disconnectLog := disconnectLog
    exitCode := 0 }

/-! ### `roundDuration` (`utils.go:234-251`, `unnamed/part_003:179-196`)

Go's `time.Duration` is `int64`; every arithmetic operation (including the
unary minus and the additions inside `roundDuration`) wraps around in
two's complement.  `i64wrap` is that wrap-around; `Int.tmod` is Go's `%`
(truncated division, remainder takes the dividend's sign). -/

/-- Two's-complement wrap-around into the `int64` range. -/
def i64wrap (x : Int) : Int := (x + 2 ^ 63) % 2 ^ 64 - 2 ^ 63

/-- `roundDuration` (`utils.go:234-251`): round duration `d` to the nearest
multiple of `r`.  Each Go operation that can overflow is wrapped with
`i64wrap`; `d % r` needs no wrap (its value always fits), and Go evaluates
`d + r - m` as `(d + r) - m` with both operations wrapping. -/
def roundDuration (d r : Int) : Int :=
  if r ≤ 0 then d
  else
    let neg := d < 0
    let d1 := if neg then i64wrap (-d) else d
    let m := Int.tmod d1 r
    let d2 := if i64wrap (m + m) < r then i64wrap (d1 - m)
      else i64wrap (i64wrap (d1 + r) - m)
    if neg then i64wrap (-d2) else d2

/-! ### Helper lemmas -/

/-- A string is a substring of any append that has it in the middle. -/
theorem containsSub_append_middle (a b c : String) : containsSub (a ++ b ++ c) b :=
  ⟨a.data, c.data, by simp [String.data_append]⟩

/-- Substring containment passes through an enclosing append. -/
theorem containsSub_append_of_mid (a b c pat : String) (h : containsSub b pat) :
    containsSub (a ++ b ++ c) pat :=
  List.IsInfix.trans h (containsSub_append_middle a b c)

/-- Substring containment is preserved by appending on the right. -/
theorem containsSub_append_right (a c pat : String) (h : containsSub a pat) :
    containsSub (a ++ c) pat :=
  List.IsInfix.trans h ⟨[], c.data, by simp [String.data_append]⟩

/-! ### C2 -/

/-- C2: the close-code classification of `readInitMessage` is a total
deterministic function of the numeric close code: the known codes 4003, 4004,
4006, 4007 and 4500 map to their specific messages, and every other code
(e.g. 4999) maps to the "unrecognized code" fallback. -/
theorem close_code_classification_total (sub : String) (code : Int)
    (h3 : code ≠ CloseMaxNumSubscribers) (h4 : code ≠ CloseMaxNumSubscriptions)
    (h6 : code ≠ CloseMissingSubscriptionID) (h7 : code ≠ CloseUnknownSubscriptionID)
    (h5 : code ≠ CloseInternalError) :
    initCloseErrMsg sub CloseMaxNumSubscribers =
      "The max number of concurrent subscribers for the account has been exceeded" ∧
    initCloseErrMsg sub CloseMaxNumSubscriptions =
      "The max number of registered subscriptions for the account has been exceeded" ∧
    initCloseErrMsg sub CloseMissingSubscriptionID =
      "Missing subscription ID or name in setup request" ∧
    initCloseErrMsg sub CloseUnknownSubscriptionID =
      "Subscription ID '" ++ sub ++ "' is not registered on server" ∧
    initCloseErrMsg sub CloseInternalError = "Unknown server error" ∧
    initCloseErrMsg sub code = "Server sent unrecognized error code " ++ toString code := by
  refine ⟨by rfl, by rfl, by rfl, by rfl, by rfl, ?_⟩
  unfold initCloseErrMsg
  rw [if_neg h7, if_neg h6, if_neg h3, if_neg h4, if_neg h5]

/-- Witness for C2 at the unknown code 4999. -/
theorem close_code_classification_total_witness :
    ((4999 : Int) ≠ CloseMaxNumSubscribers ∧ (4999 : Int) ≠ CloseMaxNumSubscriptions ∧
     (4999 : Int) ≠ CloseMissingSubscriptionID ∧ (4999 : Int) ≠ CloseUnknownSubscriptionID ∧
     (4999 : Int) ≠ CloseInternalError) ∧
    initCloseErrMsg "sub-1" 4999 = "Server sent unrecognized error code " ++ toString (4999 : Int) :=
  ⟨⟨by decide, by decide, by decide, by decide, by decide⟩,
   (close_code_classification_total "sub-1" 4999 (by decide) (by decide) (by decide)
      (by decide) (by decide)).2.2.2.2.2⟩

/-! ### C4 -/

/-- C4: the claimed backoff table is not what the program executes.
`connectToWebsocket` returns `WebsocketSetupHTTPError` by value while
`websocketConnectLoop` cases on the pointer type `*WebsocketSetupHTTPError`,
which a value-typed error never matches, so an HTTP 429 or 401 setup failure
takes the `default` arm and sleeps 5 seconds like any generic failure: the
30-second rate-limit wait and the immediate credential refresh are
unreachable from every error `connectToWebsocket` can produce (first
conjunct block), although the written-but-dead pointer arms would have
produced exactly the claimed table (last conjunct block). -/
theorem http_backoff_arms_unreachable :
    (websocketConnectLoopStep (connectToWebsocketError (some StatusTooManyRequests) "dial")
        = .sleepAndRetry 5 ∧
      websocketConnectLoopStep (connectToWebsocketError (some StatusUnauthorized) "dial")
        = .sleepAndRetry 5 ∧
      websocketConnectLoopStep (connectToWebsocketError none "dial") = .sleepAndRetry 5 ∧
      websocketConnectLoopStepSecret (connectToWebsocketError (some StatusUnauthorized) "dial")
        = .sleepAndRetry 5) ∧
    (∀ (respStatus : Option Int) (dialErr : String) (status : Int),
      connectToWebsocketError respStatus dialErr ≠ ConnectError.setupHTTPErrorPtr status) ∧
    (websocketConnectLoopStep (.setupHTTPErrorPtr StatusTooManyRequests)
        = .sleepAndRetry 30 ∧
      websocketConnectLoopStep (.setupHTTPErrorPtr StatusUnauthorized)
        = .refreshTokenAndRetry ∧
      websocketConnectLoopStepSecret (.setupHTTPErrorPtr StatusUnauthorized) = .fatal) := by
  refine ⟨⟨rfl, rfl, rfl, rfl⟩, ?_, by decide⟩
  intro respStatus dialErr status h
  cases respStatus <;> simp [connectToWebsocketError] at h

/-! ### C6 -/

/-- C6: a keepalive tick never terminates the process, never replaces the
shared connection handle, and a failed ping write is only logged (the loop
continues to the next tick). -/
theorem keepalive_send_failure_only_logged (conn : Option Conn)
    (writePing : Conn → WriteControlResult) :
    (keepAliveTick conn writePing).1.exitsProcess = false ∧
    (keepAliveTick conn writePing).2 = conn ∧
    (∀ c, conn = some c →
      (keepAliveTick conn writePing).1.logLine.isSome = (writePing c).isFailure) := by
  cases conn with
  | none => exact ⟨rfl, rfl, fun c hc => by cases hc⟩
  | some c =>
    refine ⟨?_, ?_, ?_⟩
    · cases h : writePing c <;> simp [keepAliveTick, h]
    · cases h : writePing c <;> simp [keepAliveTick, h]
    · intro c' hc'
      cases hc'
      cases h : writePing c <;>
        simp [keepAliveTick, h, WriteControlResult.isFailure]

/-- Witness for C6: a failing ping write on a live handle is logged and the
tick neither exits nor touches the handle. -/
theorem keepalive_send_failure_only_logged_witness :
    (keepAliveTick (some ⟨1⟩) fun _ => WriteControlResult.failed "x").1.logLine.isSome
      = (WriteControlResult.failed "x").isFailure :=
  (keepalive_send_failure_only_logged (some ⟨1⟩) (fun _ => WriteControlResult.failed "x")).2.2
    ⟨1⟩ rfl

/-! ### C10 -/

/-- C10: the keepalive tick attempts a ping write exactly when the shared
connection handle is non-nil; a tick that fires while the handle is nil
performs no write at all. -/
theorem keepalive_nil_handle_guard (conn : Option Conn)
    (writePing : Conn → WriteControlResult) :
    (keepAliveTick conn writePing).1.pingAttempted = conn.isSome := by
  cases conn with
  | none => rfl
  | some c => cases h : writePing c <;> simp [keepAliveTick, h]

/-! ### C8 -/

/-- C8: the upgrade-request URL always carries the `subscription_id` query
parameter, and it carries the `reconnect_token` parameter iff the reconnect
token differs from the nil UUID (when the token is nil the parameter is
omitted entirely).  The hypothesis rules out the parameter name occurring by
accident inside the endpoint or the subscription identifier. -/
theorem connect_url_reconnect_param_iff (base sid : String) (tok : UUID)
    (h : ¬ containsSub (base ++ "?subscription_id=" ++ sid) "reconnect_token") :
    containsSub (connectToWebsocketURL base tok sid) "subscription_id" ∧
    (containsSub (connectToWebsocketURL base tok sid) "reconnect_token" ↔ tok ≠ uuidNil) := by
  have hsub : containsSub (base ++ "?subscription_id=" ++ sid) "subscription_id" :=
    containsSub_append_of_mid base "?subscription_id=" sid _ (by decide)
  by_cases ht : tok = uuidNil
  · have hurl : connectToWebsocketURL base tok sid = base ++ "?subscription_id=" ++ sid := by
      simp [connectToWebsocketURL, ht]
    rw [hurl]
    exact ⟨hsub, ⟨fun hc => absurd hc h, fun hne => absurd ht hne⟩⟩
  · have hurl : connectToWebsocketURL base tok sid =
        (base ++ "?subscription_id=" ++ sid) ++ "&reconnect_token=" ++ uuidString tok := by
      simp [connectToWebsocketURL, ht]
    rw [hurl]
    refine ⟨containsSub_append_right _ _ _ (containsSub_append_right _ _ _ hsub), ?_⟩
    refine ⟨fun _ => ht, fun _ => ?_⟩
    exact containsSub_append_of_mid _ "&reconnect_token=" _ _ (by decide)

/-- Witness for C8 at a concrete endpoint, subscription id and token. -/
theorem connect_url_reconnect_param_iff_witness :
    (¬ containsSub ("wss://x" ++ "?subscription_id=" ++ "abc") "reconnect_token") ∧
    containsSub (connectToWebsocketURL "wss://x" ⟨5⟩ "abc") "subscription_id" ∧
    (containsSub (connectToWebsocketURL "wss://x" ⟨5⟩ "abc") "reconnect_token" ↔
      (⟨5⟩ : UUID) ≠ uuidNil) :=
  ⟨by decide, connect_url_reconnect_param_iff "wss://x" "abc" ⟨5⟩ (by decide)⟩

/-! ### C1 -/

/-- C1 counterexample: an Active session holding the non-nil stored token
00000000-0000-0000-0000-000000000001 is disconnected with close code 4005
(`CloseInvalidReconnectToken`); the read loop starts the reconnect with the
stored token unchanged, and the upgrade URL built for that attempt does carry
the `reconnect_token` parameter — the stale token is sent again, not
cleared. -/
theorem invalid_reconnect_token_not_cleared :
    messageReadLoopStep (fun _ => .error "err") ⟨1⟩ (.closeErr CloseInvalidReconnectToken)
      = .reconnect ⟨1⟩ ∧
    (⟨1⟩ : UUID) ≠ uuidNil ∧
    containsSub (connectToWebsocketURL "wss://ws.abiosgaming.com/v0" ⟨1⟩ "abc")
      "reconnect_token" := by
  exact ⟨rfl, by decide, by decide⟩

/-- C1 amended: on any close of an Active session — close code 4005
(`CloseInvalidReconnectToken`) included — `messageReadLoop` starts the next
`Connecting` attempt with the stored reconnect token unchanged (the close
code is never inspected and the token is never cleared), so a non-nil stale
token is sent again in the new upgrade request's `reconnect_token`
parameter. -/
theorem close_reconnects_with_stored_token
    (jsonUnmarshal : String → Except String PushMessage) (tok : UUID) (code : Int)
    (base sid : String) :
    messageReadLoopStep jsonUnmarshal tok (.closeErr code) = .reconnect tok ∧
    (tok ≠ uuidNil →
      containsSub (connectToWebsocketURL base tok sid) "reconnect_token") := by
  refine ⟨rfl, fun h => ?_⟩
  have hurl : connectToWebsocketURL base tok sid =
      (base ++ "?subscription_id=" ++ sid) ++ "&reconnect_token=" ++ uuidString tok := by
    simp [connectToWebsocketURL, h]
  rw [hurl]
  exact containsSub_append_of_mid _ "&reconnect_token=" _ _ (by decide)

/-- Witness for the amended C1 at close code 4005 and a concrete non-nil
token. -/
theorem close_reconnects_with_stored_token_witness :
    ((⟨7⟩ : UUID) ≠ uuidNil) ∧
    containsSub (connectToWebsocketURL "wss://x" ⟨7⟩ "s") "reconnect_token" :=
  ⟨by decide,
   (close_reconnects_with_stored_token (fun _ => .error "e") ⟨7⟩
      CloseInvalidReconnectToken "wss://x" "s").2 (by decide)⟩

/-! ### C5 -/

/-- C5: a frame that fails to decode as a push-event envelope is logged
together with its raw bytes and dropped — the read loop does not exit — and a
subsequent well-formed frame is still decoded and delivered to the consumer
(`printJsonWithTag("MSG", ...)`). -/
theorem malformed_frame_dropped_next_delivered
    (jsonUnmarshal : String → Except String PushMessage) (tok : UUID)
    (bad good e : String) (pm : PushMessage) (rest : List ReadResult)
    (hbad : jsonUnmarshal bad = .error e) (hgood : jsonUnmarshal good = .ok pm) :
    (∃ log, messageReadLoopStep jsonUnmarshal tok (.frame bad) = .dropLogged log ∧
      containsSub log bad) ∧
    messageReadLoopRun jsonUnmarshal tok (.frame bad :: .frame good :: rest)
      = (good :: (messageReadLoopRun jsonUnmarshal tok rest).1,
         (messageReadLoopRun jsonUnmarshal tok rest).2) := by
  have hstep : messageReadLoopStep jsonUnmarshal tok (.frame bad) =
      .dropLogged ("[ERROR]: Failed to unmarshal to message struct. Error='" ++
        ("Error when unmarshalling incoming json. Error:" ++ e ++ ", JSON:" ++ bad) ++
        "', Message='" ++ bad ++ "'") := by
    simp [messageReadLoopStep, tryUnmarshalJSONAsPushMessage, hbad]
  have hgstep : messageReadLoopStep jsonUnmarshal tok (.frame good) = .deliver good := by
    simp [messageReadLoopStep, tryUnmarshalJSONAsPushMessage, hgood]
  refine ⟨⟨_, hstep, ?_⟩, ?_⟩
  · exact containsSub_append_middle _ bad "'"
  · simp [messageReadLoopRun, hstep, hgstep]

/-- Witness for C5: a concrete decoder rejecting `{bad}` and accepting
`{good}`, with one malformed and one well-formed frame. -/
theorem malformed_frame_dropped_next_delivered_witness :
    ((fun s => if s = "good" then Except.ok (⟨"ch", ⟨0⟩, 0, 0, []⟩ : PushMessage)
        else Except.error "invalid json") "bad" = Except.error "invalid json") ∧
    messageReadLoopRun
        (fun s => if s = "good" then Except.ok (⟨"ch", ⟨0⟩, 0, 0, []⟩ : PushMessage)
          else Except.error "invalid json") ⟨0⟩
        [.frame "bad", .frame "good"]
      = (["good"], none) := by
  refine ⟨rfl, ?_⟩
  have h := (malformed_frame_dropped_next_delivered
    (fun s => if s = "good" then Except.ok (⟨"ch", ⟨0⟩, 0, 0, []⟩ : PushMessage)
      else Except.error "invalid json") ⟨0⟩ "bad" "good" "invalid json"
    ⟨"ch", ⟨0⟩, 0, 0, []⟩ [] rfl rfl).2
  simpa [messageReadLoopRun] using h

/-! ### C3 -/

/-- C3: a successful handshake (init frame read and unmarshalled without
error) overwrites the stored reconnect token with the `reconnect_token`
parsed from that frame — the result does not depend on the previously stored
value — and before the first successful handshake the token used is the one
parsed from the caller's flag, or nil when the flag does not parse. -/
theorem handshake_overwrites_reconnect_token
    (unmarshalInit : String → Except String InitResponseMessage)
    (frame : String) (m : InitResponseMessage) (old old' : UUID)
    (h : unmarshalInit frame = .ok m) :
    setupPushServiceConnection unmarshalInit (.ok frame) old = .ok m.reconnectToken ∧
    setupPushServiceConnection unmarshalInit (.ok frame) old =
      setupPushServiceConnection unmarshalInit (.ok frame) old' ∧
    (∀ fromString flagValue u, fromString flagValue = Except.ok u →
      parseReconnectTokenFlag fromString flagValue = u) ∧
    (∀ fromString flagValue e, fromString flagValue = Except.error e →
      parseReconnectTokenFlag fromString flagValue = uuidNil) := by
  refine ⟨?_, ?_, ?_, ?_⟩
  · simp [setupPushServiceConnection, h]
  · simp [setupPushServiceConnection, h]
  · intro fs v u hfs
    simp [parseReconnectTokenFlag, hfs]
  · intro fs v e hfs
    simp [parseReconnectTokenFlag, hfs]

/-- Witness for C3: a handshake frame carrying token
00000000-0000-0000-0000-000000000009 replaces a previously stored token 4. -/
theorem handshake_overwrites_reconnect_token_witness :
    setupPushServiceConnection
        (fun _ => .ok ⟨"system", ⟨2⟩, "init", ⟨3⟩, ⟨9⟩, ⟨⟨0⟩, "", "", []⟩, false⟩)
        (.ok "init-frame") ⟨4⟩
      = .ok (⟨9⟩ : UUID) :=
  (handshake_overwrites_reconnect_token
    (fun _ => .ok ⟨"system", ⟨2⟩, "init", ⟨3⟩, ⟨9⟩, ⟨⟨0⟩, "", "", []⟩, false⟩)
    "init-frame" ⟨"system", ⟨2⟩, "init", ⟨3⟩, ⟨9⟩, ⟨⟨0⟩, "", "", []⟩, false⟩
    ⟨4⟩ ⟨4⟩ rfl).1

/-! ### C7 -/

/-- C7 counterexample: when the caller supplies a pre-existing subscription
identifier via `--subscription-id` (no subscription file), `wasUpdated` keeps
its zero value `false`, so the removal handler is registered anyway and the
shutdown path does request deletion of a subscription this session never
created — deletion is not skipped. -/
theorem deletion_not_skipped_for_caller_supplied_id :
    registerOrUpdateSubscription "" "5ff0ff5f-bd37-41c7-96b3-310e66ca4b8a"
        (.error "no file") (fun _ => .error "unused") (fun _ => .error "unused")
      = .ok ("5ff0ff5f-bd37-41c7-96b3-310e66ca4b8a", false) ∧
    removalHandlerRegistered false = true ∧
    (shutdownHandlerBody (.ok ()) (some ⟨1⟩) fun _ => .ok).deleteRequested = true := by
  exact ⟨rfl, rfl, rfl⟩

/-- C7 amended: on interrupt the process requests deletion of the
subscription unless the registration step found (and updated) an
already-existing named subscription — deletion is NOT skipped when the caller
supplied a pre-existing subscription identifier via `--subscription-id` —
then attempts a close control frame exactly when a transport handle exists;
failures of either step are only logged and the handler exits the process
with success code 0. -/
theorem shutdown_deletes_then_closes_exits_zero
    (idFlag : String) (fileFlag : String) (sub : Subscription) (sid : UUID)
    (readSpec : Except String Subscription)
    (register update : Subscription → Except String (UUID × Bool))
    (deleteResult : Except String Unit) (conn : Option Conn)
    (writeClose : Conn → WriteControlResult) :
    (idFlag ≠ "" →
      registerOrUpdateSubscription "" idFlag readSpec register update
        = .ok (idFlag, false) ∧
      removalHandlerRegistered false = true) ∧
    (fileFlag ≠ "" → readSpec = .ok sub →
      register sub = .ok (sid, true) →
      update { sub with id := sid } = .ok (sid, true) →
      registerOrUpdateSubscription fileFlag "" readSpec register update
        = .ok (uuidString sid, true) ∧
      removalHandlerRegistered true = false) ∧
    (shutdownHandlerBody deleteResult conn writeClose).exitCode = 0 ∧
    (shutdownHandlerBody deleteResult conn writeClose).deleteRequested = true ∧
    (shutdownHandlerBody deleteResult conn writeClose).closeFrameAttempted = conn.isSome ∧
    (∀ e, deleteResult = .error e →
      (shutdownHandlerBody deleteResult conn writeClose).deleteLog.isSome) ∧
    (∀ c e, conn = some c → writeClose c = .failed e →
      (shutdownHandlerBody deleteResult conn writeClose).disconnectLog.isSome) := by
  refine ⟨?_, ?_, rfl, rfl, rfl, ?_, ?_⟩
  · intro hid
    exact ⟨by simp [registerOrUpdateSubscription, hid], rfl⟩
  · intro hfile hread hreg hupd
    refine ⟨?_, rfl⟩
    simp [registerOrUpdateSubscription, hfile, hread, hreg, hupd]
  · intro e he
    simp [shutdownHandlerBody, he]
  · intro c e hc hw
    cases hc
    simp [shutdownHandlerBody, disconnectWebsocket, hw]

/-- Witness for the amended C7: caller-supplied id path, a failing delete and
a failing close write, process still exits 0. -/
theorem shutdown_deletes_then_closes_exits_zero_witness :
    (("sub-77" : String) ≠ "" ∧
     registerOrUpdateSubscription "" "sub-77" (.error "no file")
        (fun _ => .error "unused") (fun _ => .error "unused") = .ok ("sub-77", false)) ∧
    (shutdownHandlerBody (.error "http 500") (some ⟨1⟩) fun _ =>
        WriteControlResult.failed "broken pipe").exitCode = 0 ∧
    (shutdownHandlerBody (.error "http 500") (some ⟨1⟩) fun _ =>
        WriteControlResult.failed "broken pipe").deleteLog.isSome ∧
    (shutdownHandlerBody (.error "http 500") (some ⟨1⟩) fun _ =>
        WriteControlResult.failed "broken pipe").disconnectLog.isSome := by
  have h := shutdown_deletes_then_closes_exits_zero "sub-77" "" ⟨⟨0⟩, "", "", []⟩ ⟨0⟩
    (.error "no file") (fun _ => .error "unused") (fun _ => .error "unused")
    (.error "http 500") (some ⟨1⟩) (fun _ => WriteControlResult.failed "broken pipe")
  exact ⟨⟨by decide, (h.1 (by decide)).1⟩, h.2.2.1,
    h.2.2.2.2.2.1 "http 500" rfl, h.2.2.2.2.2.2 ⟨1⟩ "broken pipe" rfl rfl⟩

/-! ### C9: `roundDuration` helper lemmas -/

theorem i64wrap_eq_self {x : Int} (h1 : -(2 ^ 63) ≤ x) (h2 : x < 2 ^ 63) :
    i64wrap x = x := by
  unfold i64wrap
  omega

theorem i64wrap_lb (x : Int) : -(2 ^ 63) ≤ i64wrap x := by
  unfold i64wrap
  omega

theorem i64wrap_ub (x : Int) : i64wrap x < 2 ^ 63 := by
  unfold i64wrap
  omega

theorem i64wrap_neg_neg {x : Int} (h1 : -(2 ^ 63) ≤ x) (h2 : x < 2 ^ 63) :
    i64wrap (-(i64wrap (-x))) = x := by
  unfold i64wrap
  omega

theorem roundDuration_neg (d r : Int) (h₁ : -(2 ^ 63) < d) (h₂ : d < 2 ^ 63) :
    roundDuration (-d) r = i64wrap (-(roundDuration d r)) := by
  unfold roundDuration
  by_cases hr : r ≤ 0
  · rw [if_pos hr, if_pos hr, i64wrap_eq_self (by omega) (by omega)]
  · rw [if_neg hr, if_neg hr]
    rcases lt_trichotomy d 0 with hd | rfl | hd
    · have h1 : ¬ (-d < 0) := by omega
      have h2 : (-d) < 2 ^ 63 := by omega
      have h3 : -(2 ^ 63) ≤ -d := by omega
      simp only [h1, hd, if_true, if_false, if_neg h1, if_pos hd,
        i64wrap_eq_self h3 h2]
      set w := if i64wrap (Int.tmod (-d) r + Int.tmod (-d) r) < r then
          i64wrap (-d - Int.tmod (-d) r)
        else i64wrap (i64wrap (-d + r) - Int.tmod (-d) r) with hw
      have hwr : -(2 ^ 63) ≤ w ∧ w < 2 ^ 63 := by
        rw [hw]
        split
        · exact ⟨i64wrap_lb _, i64wrap_ub _⟩
        · exact ⟨i64wrap_lb _, i64wrap_ub _⟩
      rw [i64wrap_neg_neg hwr.1 hwr.2]
    · have h0 : i64wrap 0 = 0 := by decide
      simp only [neg_zero, lt_self_iff_false, if_false, ite_self, Int.zero_tmod,
        add_zero, sub_zero, zero_add, h0]
      rw [if_pos (by omega : (0 : Int) < r), neg_zero, h0]
    · have h1 : -d < 0 := by omega
      have h3 : -(2 ^ 63) ≤ d := by omega
      have h4 : i64wrap d = d := i64wrap_eq_self h3 h₂
      simp only [h1, if_true, neg_neg, h4, if_neg (by omega : ¬ d < 0)]


theorem roundDuration_pos_eq (d r : Int) (hd0 : 0 ≤ d) (hd : d < 2 ^ 62)
    (hr0 : 0 < r) (hr : r ≤ 2 ^ 62) :
    roundDuration d r = if 2 * (d % r) < r then d - d % r else d + (r - d % r) := by
  have hm0 : 0 ≤ d % r := Int.emod_nonneg d (by omega)
  have hmr : d % r < r := Int.emod_lt_of_pos d hr0
  have htm : Int.tmod d r = d % r := Int.tmod_eq_emod hd0 (by omega)
  unfold roundDuration
  rw [if_neg (by omega : ¬ r ≤ 0)]
  simp only [if_neg (by omega : ¬ d < 0), htm]
  rw [i64wrap_eq_self (x := d % r + d % r) (by omega) (by omega)]
  by_cases hb : d % r + d % r < r
  · rw [if_pos hb, if_pos (by omega : 2 * (d % r) < r),
      i64wrap_eq_self (by omega) (by omega)]
  · rw [if_neg hb, if_neg (by omega : ¬ 2 * (d % r) < r),
      i64wrap_eq_self (x := d + r) (by omega) (by omega),
      i64wrap_eq_self (by omega) (by omega)]
    ring

theorem nearest_of_half (d r v : Int) (hr0 : 0 < r) (hv : ∃ k : Int, v = r * k)
    (h2 : 2 * |d - v| ≤ r) : ∀ k : Int, |d - v| ≤ |d - r * k| := by
  intro k
  obtain ⟨a, ha⟩ := hv
  rcases eq_or_ne k a with rfl | hk
  · rw [← ha]
  · have e1 : d - r * k = (d - v) + r * (a - k) := by rw [ha]; ring
    have habs1 : 1 ≤ |a - k| := Int.one_le_abs (sub_ne_zero.mpr (Ne.symm hk))
    have h3 : r ≤ |r * (a - k)| := by
      rw [abs_mul, abs_of_pos hr0]
      calc r = r * 1 := (mul_one r).symm
        _ ≤ r * |a - k| := mul_le_mul_of_nonneg_left habs1 (le_of_lt hr0)
    have h4 : |r * (a - k)| ≤ |d - r * k| + |d - v| := by
      have e2 : r * (a - k) = (d - r * k) + -(d - v) := by rw [e1]; ring
      calc |r * (a - k)| = |(d - r * k) + -(d - v)| := by rw [e2]
        _ ≤ |d - r * k| + |-(d - v)| := abs_add _ _
        _ = |d - r * k| + |d - v| := by rw [abs_neg]
    linarith

theorem roundDuration_pos_props (d r : Int) (hd0 : 0 ≤ d) (hd : d < 2 ^ 62)
    (hr0 : 0 < r) (hr : r ≤ 2 ^ 62) :
    (∃ k : Int, roundDuration d r = r * k) ∧
    2 * |d - roundDuration d r| ≤ r ∧
    (∀ k : Int, |d - roundDuration d r| ≤ |d - r * k|) ∧
    (2 * |d - roundDuration d r| = r → |d| < |roundDuration d r|) := by
  rw [roundDuration_pos_eq d r hd0 hd hr0 hr]
  have hm0 : 0 ≤ d % r := Int.emod_nonneg d (by omega)
  have hmr : d % r < r := Int.emod_lt_of_pos d hr0
  have hdm : r * (d / r) + d % r = d := Int.ediv_add_emod d r
  by_cases hb : 2 * (d % r) < r
  · rw [if_pos hb]
    have hmul : ∃ k : Int, d - d % r = r * k := ⟨d / r, by linarith⟩
    have habs : |d - (d - d % r)| = d % r := by
      rw [show d - (d - d % r) = d % r by ring, abs_of_nonneg hm0]
    refine ⟨hmul, ?_, ?_, ?_⟩
    · rw [habs]; omega
    · exact nearest_of_half d r (d - d % r) hr0 hmul (by rw [habs]; omega)
    · rw [habs]; omega
  · rw [if_neg hb]
    have hmul : ∃ k : Int, d + (r - d % r) = r * k :=
      ⟨d / r + 1, by have e1 : r * (d / r + 1) = r * (d / r) + r := by ring
                     linarith⟩
    have habs : |d - (d + (r - d % r))| = r - d % r := by
      rw [show d - (d + (r - d % r)) = -(r - d % r) by ring, abs_neg,
        abs_of_nonneg (by omega)]
    refine ⟨hmul, ?_, ?_, ?_⟩
    · rw [habs]; omega
    · exact nearest_of_half d r (d + (r - d % r)) hr0 hmul (by rw [habs]; omega)
    · intro _
      rw [abs_of_nonneg hd0, abs_of_nonneg (by omega : (0 : Int) ≤ d + (r - d % r))]
      omega

theorem roundDuration_props (d r : Int) (hd1 : -(2 ^ 62) < d) (hd2 : d < 2 ^ 62)
    (hr0 : 0 < r) (hr : r ≤ 2 ^ 62) :
    (∃ k : Int, roundDuration d r = r * k) ∧
    2 * |d - roundDuration d r| ≤ r ∧
    (∀ k : Int, |d - roundDuration d r| ≤ |d - r * k|) ∧
    (2 * |d - roundDuration d r| = r → |d| < |roundDuration d r|) := by
  rcases le_or_lt 0 d with hd0 | hd0
  · exact roundDuration_pos_props d r hd0 hd2 hr0 hr
  · have hd'0 : 0 ≤ -d := by omega
    have hd'2 : -d < 2 ^ 62 := by omega
    have hodd : roundDuration d r = i64wrap (-(roundDuration (-d) r)) := by
      have h := roundDuration_neg (-d) r (by omega) (by omega)
      rw [neg_neg] at h
      exact h
    have hm0 : 0 ≤ (-d) % r := Int.emod_nonneg (-d) (by omega)
    have hmr : (-d) % r < r := Int.emod_lt_of_pos (-d) hr0
    have hq0 : 0 ≤ (-d) / r := Int.ediv_nonneg hd'0 (le_of_lt hr0)
    have hrq0 : 0 ≤ r * ((-d) / r) := mul_nonneg (le_of_lt hr0) hq0
    have hdm' : r * ((-d) / r) + (-d) % r = -d := Int.ediv_add_emod (-d) r
    have hmle : (-d) % r ≤ -d := by linarith
    have hv0 : 0 ≤ roundDuration (-d) r := by
      rw [roundDuration_pos_eq (-d) r hd'0 hd'2 hr0 hr]
      split <;> omega
    have hvub : roundDuration (-d) r < 2 ^ 63 := by
      rw [roundDuration_pos_eq (-d) r hd'0 hd'2 hr0 hr]
      split <;> omega
    have hw : roundDuration d r = -(roundDuration (-d) r) := by
      rw [hodd, i64wrap_eq_self (by omega) (by omega)]
    obtain ⟨hmul', hhalf', _, htie'⟩ := roundDuration_pos_props (-d) r hd'0 hd'2 hr0 hr
    have habs : |d - roundDuration d r| = |(-d) - roundDuration (-d) r| := by
      rw [hw, show d - -(roundDuration (-d) r) = -((-d) - roundDuration (-d) r) by ring,
        abs_neg]
    have hmul : ∃ k : Int, roundDuration d r = r * k := by
      obtain ⟨k, hk⟩ := hmul'
      exact ⟨-k, by rw [hw, hk]; ring⟩
    have hhalf : 2 * |d - roundDuration d r| ≤ r := by rw [habs]; exact hhalf'
    refine ⟨hmul, hhalf, nearest_of_half d r _ hr0 hmul hhalf, ?_⟩
    intro htie
    rw [habs] at htie
    have h5 := htie' htie
    rw [abs_neg] at h5
    rw [hw, abs_neg]
    exact h5

/-! ### C9 -/

/-- C9 counterexample: at `d = 2^62 + 1`, `r = 2^62 + 2` the int64 addition
`m + m` inside `roundDuration` overflows, so the function returns `0` even
though the multiple `r * 1` is strictly nearer to `d` — the result is not the
nearest multiple of `r`.  And at `d = -2^63` (where the int64 negation `-d`
wraps to `-2^63` itself) the oddness law fails: `roundDuration` of the
wrapped `-d` is not the wrapped negation of `roundDuration d r`. -/
theorem roundDuration_overflow_counterexample :
    roundDuration (2 ^ 62 + 1) (2 ^ 62 + 2) = 0 ∧
    |(2 ^ 62 + 1 : Int) - (2 ^ 62 + 2) * 1| <
      |(2 ^ 62 + 1 : Int) - roundDuration (2 ^ 62 + 1) (2 ^ 62 + 2)| ∧
    roundDuration (i64wrap (-(-(2 ^ 63 : Int)))) 3 ≠
      i64wrap (-(roundDuration (-(2 ^ 63 : Int)) 3)) := by
  refine ⟨by decide, by decide, by decide⟩

/-- C9 amended: `roundDuration d r` returns `d` unchanged whenever `r ≤ 0`;
it is odd up to int64 wrap-around for every in-range `d` other than `-2^63`
(`roundDuration (-d) r` equals the wrapped negation of `roundDuration d r`);
and whenever `0 < r ≤ 2^62` and `|d| < 2^62` — so that no int64 intermediate
overflows — the result is the integer multiple of `r` nearest to `d` with
exact half-way remainders rounded away from zero: it is a multiple of `r`,
within `r/2` of `d`, no other multiple is closer, and at an exact half-way
tie its magnitude strictly exceeds `|d|`.  At extreme magnitudes (see the
counterexample) the int64 intermediates overflow and the nearest-multiple
and oddness properties fail. -/
theorem roundDuration_rounds (d r : Int) :
    (r ≤ 0 → roundDuration d r = d) ∧
    (-(2 ^ 63) < d → d < 2 ^ 63 →
      roundDuration (-d) r = i64wrap (-(roundDuration d r))) ∧
    (-(2 ^ 62) < d → d < 2 ^ 62 → 0 < r → r ≤ 2 ^ 62 →
      (∃ k : Int, roundDuration d r = r * k) ∧
      2 * |d - roundDuration d r| ≤ r ∧
      (∀ k : Int, |d - roundDuration d r| ≤ |d - r * k|) ∧
      (2 * |d - roundDuration d r| = r → |d| < |roundDuration d r|)) := by
  refine ⟨?_, ?_, ?_⟩
  · intro hr
    unfold roundDuration
    rw [if_pos hr]
  · intro h1 h2
    exact roundDuration_neg d r h1 h2
  · intro hd1 hd2 hr0 hr
    exact roundDuration_props d r hd1 hd2 hr0 hr

/-- Witness for the amended C9 at `d = 5`, `r = 2` (rounds to 6). -/
theorem roundDuration_rounds_witness :
    ((-(2 ^ 62) : Int) < 5 ∧ (5 : Int) < 2 ^ 62 ∧ (0 : Int) < 2 ∧ (2 : Int) ≤ 2 ^ 62) ∧
    (∃ k : Int, roundDuration 5 2 = 2 * k) ∧
    2 * |(5 : Int) - roundDuration 5 2| ≤ 2 :=
  ⟨⟨by decide, by decide, by decide, by decide⟩,
   ((roundDuration_rounds 5 2).2.2 (by decide) (by decide) (by decide) (by decide)).1,
   ((roundDuration_rounds 5 2).2.2 (by decide) (by decide) (by decide) (by decide)).2.1⟩
